import Mathlib

/-!
Verification development for the `dingtalk-rs` webhook client.

The Rust sources (`src/lib.rs`, `src/msg.rs`) are shallowly embedded below:
  * JSON values become the inductive `Json` (objects are association lists,
    read through `Json.getKey`, so only key presence and values matter,
    matching `serde_json::Value` map semantics);
  * machine strings stay `String` (byte views go through `utf8Bytes`);
  * the system clock and the HTTP transport are external inputs, passed
    explicitly (`nowMillis : Nat`, `TransportResult`);
  * fallible Rust functions returning `XResult<T>` become `Except String T`,
    errors carrying the same formatted message as the Rust `Error::new` calls.
-/

namespace DingTalkRs

/-- JSON value model for `serde_json::Value` as used by this crate.
Objects are association lists; `serde_json`'s map stores one value per key,
which the reading function `Json.getKey` reproduces. -/
inductive Json where
  | str (s : String)
  | bool (b : Bool)
  | arr (xs : List Json)
  | obj (fields : List (String × Json))
  deriving Repr, Inhabited

/-- Look a key up in a JSON object (first binding wins; insertion keeps keys
unique, so this matches map semantics). `none` on non-objects / missing keys. -/
def Json.getKey : Json → String → Option Json
  | .obj fields, k => fields.lookup k
  | _, _ => none

/-- Insert/replace a key in an object's field list (as `Map::insert`). -/
def insertAssoc : List (String × Json) → String → Json → List (String × Json)
  | [], k, v => [(k, v)]
  | (k', v') :: rest, k, v =>
      if k' = k then (k, v) :: rest else (k', v') :: insertAssoc rest k v

/-- `value[k] = v` on a JSON object (no-op on non-objects; every use in the
embedded code applies it to an object). -/
def Json.insertKey : Json → String → Json → Json
  | .obj fields, k, v => .obj (insertAssoc fields k v)
  | j, _, _ => j

/-- `value[k1][k2] = v`: update the object stored under `k1` (which the
embedded code guarantees is present and an object). -/
def Json.insertPath (j : Json) (k1 k2 : String) (v : Json) : Json :=
  match j with
  | .obj fields =>
      .obj (fields.map (fun p => if p.1 = k1 then (p.1, p.2.insertKey k2 v) else p))
  | _ => j

/-! ## Message model (`src/msg.rs`) -/

/-- `DingTalkType`: the provider kind. -/
inductive DingTalkType where
  | DingTalk
  | WeChatWork
  deriving Repr, DecidableEq, Inhabited

/-- `DingTalkMessageType`: the five message variants. -/
inductive DingTalkMessageType where
  | Text
  | Markdown
  | Link
  | ActionCard
  | FeedCard
  deriving Repr, DecidableEq, Inhabited

/-- The serde rename tags of `DingTalkMessageType` (`#[serde(rename = ...)]`). -/
def DingTalkMessageType.tag : DingTalkMessageType → String
  | .Text => "text"
  | .Markdown => "markdown"
  | .Link => "link"
  | .ActionCard => "actionCard"
  | .FeedCard => "feedCard"

/-- `DingTalkMessageActionCardHideAvatar` with its serde renames. -/
inductive DingTalkMessageActionCardHideAvatar where
  | Hide
  | Show
  deriving Repr, DecidableEq, Inhabited

/-- Serde rename: `Hide → "1"`, `Show → "0"`. -/
def DingTalkMessageActionCardHideAvatar.tag : DingTalkMessageActionCardHideAvatar → String
  | .Hide => "1"
  | .Show => "0"

/-- `DingTalkMessageActionCardBtnOrientation` with its serde renames. -/
inductive DingTalkMessageActionCardBtnOrientation where
  | Vertical
  | Landscape
  deriving Repr, DecidableEq, Inhabited

/-- Serde rename: `Vertical → "0"`, `Landscape → "1"`. -/
def DingTalkMessageActionCardBtnOrientation.tag : DingTalkMessageActionCardBtnOrientation → String
  | .Vertical => "0"
  | .Landscape => "1"

/-- `DingTalkMessageActionCardBtn`. -/
structure DingTalkMessageActionCardBtn where
  title : String
  action_url : String
  deriving Repr, DecidableEq, Inhabited

/-- `DingTalkMessageFeedCardLink`. -/
structure DingTalkMessageFeedCardLink where
  title : String
  message_url : String
  pic_url : String
  deriving Repr, DecidableEq, Inhabited

/-- `DingTalkMessage`, with the field defaults of the Rust `Default` derive. -/
structure DingTalkMessage where
  message_type : DingTalkMessageType := .Text
  text_content : String := ""
  markdown_title : String := ""
  markdown_content : String := ""
  link_text : String := ""
  link_title : String := ""
  link_pic_url : String := ""
  link_message_url : String := ""
  action_card_title : String := ""
  action_card_text : String := ""
  action_card_hide_avatar : DingTalkMessageActionCardHideAvatar := .Show
  action_card_btn_orientation : DingTalkMessageActionCardBtnOrientation := .Vertical
  action_card_single_btn : Option DingTalkMessageActionCardBtn := none
  action_card_btns : List DingTalkMessageActionCardBtn := []
  feed_card_links : List DingTalkMessageFeedCardLink := []
  at_all : Bool := false
  at_mobiles : List String := []
  deriving Repr, DecidableEq, Inhabited

namespace DingTalkMessage

/-- `DingTalkMessage::new`. -/
def new (message_type : DingTalkMessageType) : DingTalkMessage :=
  { message_type := message_type }

/-- `DingTalkMessage::new_text`. -/
def new_text (text_content : String) : DingTalkMessage :=
  { new .Text with text_content := text_content }

/-- `DingTalkMessage::new_markdown`. -/
def new_markdown (markdown_title markdown_content : String) : DingTalkMessage :=
  { new .Markdown with markdown_title := markdown_title, markdown_content := markdown_content }

/-- `DingTalkMessage::new_link`. -/
def new_link (link_title link_text link_pic_url link_message_url : String) : DingTalkMessage :=
  { new .Link with
    link_title := link_title
    link_text := link_text
    link_pic_url := link_pic_url
    link_message_url := link_message_url }

/-- `DingTalkMessage::new_action_card`. -/
def new_action_card (title text : String) : DingTalkMessage :=
  { new .ActionCard with action_card_title := title, action_card_text := text }

/-- `DingTalkMessage::new_feed_card`. -/
def new_feed_card : DingTalkMessage := new .FeedCard

/-- `DingTalkMessage::set_action_card_signle_btn` (sic). -/
def set_action_card_signle_btn (m : DingTalkMessage) (btn : DingTalkMessageActionCardBtn) :
    DingTalkMessage :=
  { m with action_card_single_btn := some btn }

/-- `DingTalkMessage::add_action_card_btn`. -/
def add_action_card_btn (m : DingTalkMessage) (btn : DingTalkMessageActionCardBtn) :
    DingTalkMessage :=
  { m with action_card_btns := m.action_card_btns ++ [btn] }

/-- `DingTalkMessage::add_feed_card_link`. -/
def add_feed_card_link (m : DingTalkMessage) (link : DingTalkMessageFeedCardLink) :
    DingTalkMessage :=
  { m with feed_card_links := m.feed_card_links ++ [link] }

/-- `DingTalkMessage::at_all` (the builder). -/
def set_at_all (m : DingTalkMessage) : DingTalkMessage :=
  { m with at_all := true }

/-- `DingTalkMessage::at_mobiles` (the builder). -/
def set_at_mobiles (m : DingTalkMessage) (mobiles : List String) : DingTalkMessage :=
  { m with at_mobiles := m.at_mobiles ++ mobiles }

end DingTalkMessage

/-! ## Wire payload structs (`src/msg.rs`, the serde `Inner*` structs)

Each struct carries a `toJson` spelling out exactly what `serde_json::to_value`
produces for it, including the `#[serde(rename_all = "camelCase")]` and
`#[serde(rename = ...)]` attributes. -/

/-- `InnerTextMessageText`. -/
structure InnerTextMessageText where
  content : String

/-- Serde output of `InnerTextMessageText`. -/
def InnerTextMessageText.toJson (v : InnerTextMessageText) : Json :=
  .obj [("content", .str v.content)]

/-- `InnerTextMessage`. -/
structure InnerTextMessage where
  msgtype : DingTalkMessageType
  text : InnerTextMessageText

/-- Serde output of `InnerTextMessage`. -/
def InnerTextMessage.toJson (v : InnerTextMessage) : Json :=
  .obj [("msgtype", .str v.msgtype.tag), ("text", v.text.toJson)]

/-- `InnerLinkMessageLink` (camelCase renames: `picUrl`, `messageUrl`). -/
structure InnerLinkMessageLink where
  title : String
  text : String
  pic_url : String
  message_url : String

/-- Serde output of `InnerLinkMessageLink`. -/
def InnerLinkMessageLink.toJson (v : InnerLinkMessageLink) : Json :=
  .obj [("title", .str v.title), ("text", .str v.text),
        ("picUrl", .str v.pic_url), ("messageUrl", .str v.message_url)]

/-- `InnerLinkMessage`. -/
structure InnerLinkMessage where
  msgtype : DingTalkMessageType
  link : InnerLinkMessageLink

/-- Serde output of `InnerLinkMessage`. -/
def InnerLinkMessage.toJson (v : InnerLinkMessage) : Json :=
  .obj [("msgtype", .str v.msgtype.tag), ("link", v.link.toJson)]

/-- `InnerMarkdownMessageMarkdown`. -/
structure InnerMarkdownMessageMarkdown where
  title : String
  text : String

/-- Serde output of `InnerMarkdownMessageMarkdown`. -/
def InnerMarkdownMessageMarkdown.toJson (v : InnerMarkdownMessageMarkdown) : Json :=
  .obj [("title", .str v.title), ("text", .str v.text)]

/-- `InnerMarkdownMessage`. -/
structure InnerMarkdownMessage where
  msgtype : DingTalkMessageType
  markdown : InnerMarkdownMessageMarkdown

/-- Serde output of `InnerMarkdownMessage`. -/
def InnerMarkdownMessage.toJson (v : InnerMarkdownMessage) : Json :=
  .obj [("msgtype", .str v.msgtype.tag), ("markdown", v.markdown.toJson)]

/-- `InnerActionCardMessageActionCard` (camelCase: `hideAvatar`, `btnOrientation`). -/
structure InnerActionCardMessageActionCard where
  title : String
  text : String
  hide_avatar : DingTalkMessageActionCardHideAvatar
  btn_orientation : DingTalkMessageActionCardBtnOrientation

/-- Serde output of `InnerActionCardMessageActionCard`. -/
def InnerActionCardMessageActionCard.toJson (v : InnerActionCardMessageActionCard) : Json :=
  .obj [("title", .str v.title), ("text", .str v.text),
        ("hideAvatar", .str v.hide_avatar.tag), ("btnOrientation", .str v.btn_orientation.tag)]

/-- `InnerActionCardMessageBtn` (`#[serde(rename = "actionURL")]` on `action_url`). -/
structure InnerActionCardMessageBtn where
  title : String
  action_url : String

/-- Serde output of `InnerActionCardMessageBtn`. -/
def InnerActionCardMessageBtn.toJson (v : InnerActionCardMessageBtn) : Json :=
  .obj [("title", .str v.title), ("actionURL", .str v.action_url)]

/-- `InnerActionCardMessage` (camelCase: `actionCard`). -/
structure InnerActionCardMessage where
  msgtype : DingTalkMessageType
  action_card : InnerActionCardMessageActionCard

/-- Serde output of `InnerActionCardMessage`. -/
def InnerActionCardMessage.toJson (v : InnerActionCardMessage) : Json :=
  .obj [("msgtype", .str v.msgtype.tag), ("actionCard", v.action_card.toJson)]

/-- `InnerFeedCardMessageFeedCardLink` (renames `messageURL`, `picURL`). -/
structure InnerFeedCardMessageFeedCardLink where
  title : String
  message_url : String
  pic_url : String

/-- Serde output of `InnerFeedCardMessageFeedCardLink`. -/
def InnerFeedCardMessageFeedCardLink.toJson (v : InnerFeedCardMessageFeedCardLink) : Json :=
  .obj [("title", .str v.title), ("messageURL", .str v.message_url), ("picURL", .str v.pic_url)]

/-- `InnerFeedCardMessageFeedCard`. -/
structure InnerFeedCardMessageFeedCard where
  links : List InnerFeedCardMessageFeedCardLink

/-- Serde output of `InnerFeedCardMessageFeedCard`. -/
def InnerFeedCardMessageFeedCard.toJson (v : InnerFeedCardMessageFeedCard) : Json :=
  .obj [("links", .arr (v.links.map InnerFeedCardMessageFeedCardLink.toJson))]

/-- `InnerFeedCardMessage` (camelCase: `feedCard`). -/
structure InnerFeedCardMessage where
  msgtype : DingTalkMessageType
  feed_card : InnerFeedCardMessageFeedCard

/-- Serde output of `InnerFeedCardMessage`. -/
def InnerFeedCardMessage.toJson (v : InnerFeedCardMessage) : Json :=
  .obj [("msgtype", .str v.msgtype.tag), ("feedCard", v.feed_card.toJson)]

/-! ## JSON payload assembly (`DingTalk::send_message`, `src/lib.rs` 294-375)

`send_message` builds `message_json`, post-edits it for ActionCard buttons and
the `at` block, then hands the JSON to `send`. The JSON-building part is the
pure function below; the clock/HTTP parts are modelled with `send` further on. -/

/-- The JSON payload `DingTalk::send_message` builds for a message (everything
in `send_message` before the `self.send(...)` call). -/
def send_message_json (dingtalk_message : DingTalkMessage) : Json :=
  let message_json : Json :=
    match dingtalk_message.message_type with
    | .Text =>
        (InnerTextMessage.mk .Text
          (InnerTextMessageText.mk dingtalk_message.text_content)).toJson
    | .Link =>
        (InnerLinkMessage.mk .Link
          (InnerLinkMessageLink.mk dingtalk_message.link_title dingtalk_message.link_text
            dingtalk_message.link_pic_url dingtalk_message.link_message_url)).toJson
    | .Markdown =>
        (InnerMarkdownMessage.mk .Markdown
          (InnerMarkdownMessageMarkdown.mk dingtalk_message.markdown_title
            dingtalk_message.markdown_content)).toJson
    | .ActionCard =>
        (InnerActionCardMessage.mk .ActionCard
          (InnerActionCardMessageActionCard.mk dingtalk_message.action_card_title
            dingtalk_message.action_card_text dingtalk_message.action_card_hide_avatar
            dingtalk_message.action_card_btn_orientation)).toJson
    | .FeedCard =>
        (InnerFeedCardMessage.mk .FeedCard
          (InnerFeedCardMessageFeedCard.mk
            (dingtalk_message.feed_card_links.map (fun feed_card_link =>
              InnerFeedCardMessageFeedCardLink.mk feed_card_link.title
                feed_card_link.message_url feed_card_link.pic_url)))).toJson
  let message_json :=
    if dingtalk_message.message_type = .ActionCard then
      match dingtalk_message.action_card_single_btn with
      | some single_btn =>
          (message_json.insertPath "actionCard" "singleTitle"
            (.str single_btn.title)).insertPath "actionCard" "singleURL"
            (.str single_btn.action_url)
      | none =>
          message_json.insertPath "actionCard" "btns"
            (.arr (dingtalk_message.action_card_btns.map (fun action_card_btn =>
              (InnerActionCardMessageBtn.mk action_card_btn.title
                action_card_btn.action_url).toJson)))
    else message_json
  if dingtalk_message.at_all || !dingtalk_message.at_mobiles.isEmpty then
    message_json.insertKey "at"
      (.obj [("atMobiles", .arr (dingtalk_message.at_mobiles.map Json.str)),
             ("isAtAll", .bool dingtalk_message.at_all)])
  else message_json

/-! ## Byte-level helpers

Rust strings are UTF-8; `str::as_bytes` and the `urlencoding`, `base64`,
`hmac`/`sha2` crates all work on bytes. Bytes are `Nat` values `< 256`,
32-bit words are `Nat` values `< 2^32` (reduced with `% 2^32` where sums
may overflow). -/

/-- UTF-8 encoding of one scalar value (RFC 3629), the byte view Rust's
`str::as_bytes` exposes per `char`. -/
def utf8EncodeChar (c : Char) : List Nat :=
  let n := c.toNat
  if n < 128 then [n]
  else if n < 2048 then [192 + n / 64, 128 + n % 64]
  else if n < 65536 then [224 + n / 4096, 128 + n / 64 % 64, 128 + n % 64]
  else [240 + n / 262144, 128 + n / 4096 % 64, 128 + n / 64 % 64, 128 + n % 64]

/-- `str::as_bytes`: the UTF-8 bytes of a string. -/
def utf8Bytes (s : String) : List Nat :=
  (s.data.map utf8EncodeChar).flatten

/-- Uppercase hex digit, for percent-escapes. -/
def hexDigit (n : Nat) : Char :=
  "0123456789ABCDEF".data.getD n '0'

/-- Is this byte kept verbatim by `urlencoding::encode`? (RFC 3986 unreserved:
ASCII alphanumerics and `-`, `.`, `_`, `~`.) -/
def isUrlUnreserved (b : Nat) : Bool :=
  (65 ≤ b && b ≤ 90) || (97 ≤ b && b ≤ 122) || (48 ≤ b && b ≤ 57) ||
    b = 45 || b = 46 || b = 95 || b = 126

/-- Percent-encoding of one byte as `urlencoding::encode` emits it. -/
def percentEncodeByte (b : Nat) : List Char :=
  if isUrlUnreserved b then [Char.ofNat b]
  else ['%', hexDigit (b / 16), hexDigit (b % 16)]

/-- `urlencoding::encode`: percent-encode every UTF-8 byte of `s` that is not
unreserved, with uppercase hex. -/
def urlencode (s : String) : String :=
  String.mk (((utf8Bytes s).map percentEncodeByte).flatten)

/-! ## SHA-256 (FIPS 180-4) and HMAC (RFC 2104)

The `sha2`/`hmac` crates are external dependencies; they are modelled here by
the standard algorithms they implement. -/

/-- Reduce to a 32-bit word. -/
def w32 (n : Nat) : Nat := n % 4294967296

/-- 32-bit right rotation. -/
def rotr32 (x n : Nat) : Nat := w32 ((x >>> n) ||| (x <<< (32 - n)))

/-- SHA-256 `Ch(e, f, g)`. -/
def shaCh (e f g : Nat) : Nat := (e &&& f) ^^^ ((e ^^^ 4294967295) &&& g)

/-- SHA-256 `Maj(a, b, c)`. -/
def shaMaj (a b c : Nat) : Nat := (a &&& b) ^^^ (a &&& c) ^^^ (b &&& c)

/-- SHA-256 `Σ0`. -/
def shaBigSigma0 (x : Nat) : Nat := rotr32 x 2 ^^^ rotr32 x 13 ^^^ rotr32 x 22

/-- SHA-256 `Σ1`. -/
def shaBigSigma1 (x : Nat) : Nat := rotr32 x 6 ^^^ rotr32 x 11 ^^^ rotr32 x 25

/-- SHA-256 `σ0`. -/
def shaSmallSigma0 (x : Nat) : Nat := rotr32 x 7 ^^^ rotr32 x 18 ^^^ (x >>> 3)

/-- SHA-256 `σ1`. -/
def shaSmallSigma1 (x : Nat) : Nat := rotr32 x 17 ^^^ rotr32 x 19 ^^^ (x >>> 10)

/-- The 64 SHA-256 round constants (FIPS 180-4 §4.2.2, in decimal). -/
def shaK : List Nat :=
  [1116352408, 1899447441, 3049323471, 3921009573, 961987163, 1508970993,
   2453635748, 2870763221, 3624381080, 310598401, 607225278, 1426881987,
   1925078388, 2162078206, 2614888103, 3248222580, 3835390401, 4022224774,
   264347078, 604807628, 770255983, 1249150122, 1555081692, 1996064986,
   2554220882, 2821834349, 2952996808, 3210313671, 3336571891, 3584528711,
   113926993, 338241895, 666307205, 773529912, 1294757372, 1396182291,
   1695183700, 1986661051, 2177026350, 2456956037, 2730485921, 2820302411,
   3259730800, 3345764771, 3516065817, 3600352804, 4094571909, 275423344,
   430227734, 506948616, 659060556, 883997877, 958139571, 1322822218,
   1537002063, 1747873779, 1955562222, 2024104815, 2227730452, 2361852424,
   2428436474, 2756734187, 3204031479, 3329325298]

/-- The SHA-256 initial hash value (FIPS 180-4 §5.3.3, in decimal). -/
def shaH0 : List Nat :=
  [1779033703, 3144134277, 1013904242, 2773480762,
   1359893119, 2600822924, 528734635, 1541459225]

/-- Big-endian bytes (`k` of them) of `n`. -/
def natToBytesBE (k n : Nat) : List Nat :=
  (List.range k).map (fun i => n >>> (8 * (k - 1 - i)) % 256)

/-- Big-endian 32-bit words from bytes (groups of 4). -/
def bytesToWords : List Nat → List Nat
  | b0 :: b1 :: b2 :: b3 :: rest =>
      (b0 * 16777216 + b1 * 65536 + b2 * 256 + b3) :: bytesToWords rest
  | _ => []

/-- Extend the 16-word message schedule by `fuel` more words. -/
def shaExtend : Nat → List Nat → List Nat
  | 0, w => w
  | fuel + 1, w =>
      let i := w.length
      let next := w32 (w.getD (i - 16) 0 + shaSmallSigma0 (w.getD (i - 15) 0) +
        w.getD (i - 7) 0 + shaSmallSigma1 (w.getD (i - 2) 0))
      shaExtend fuel (w ++ [next])

/-- One compression round per `(k, w)` pair; `v = [a, b, c, d, e, f, g, h]`. -/
def shaRounds : List (Nat × Nat) → List Nat → List Nat
  | [], v => v
  | (k, w) :: rest, v =>
      let a := v.getD 0 0
      let b := v.getD 1 0
      let c := v.getD 2 0
      let d := v.getD 3 0
      let e := v.getD 4 0
      let f := v.getD 5 0
      let g := v.getD 6 0
      let h := v.getD 7 0
      let t1 := w32 (h + shaBigSigma1 e + shaCh e f g + k + w)
      let t2 := w32 (shaBigSigma0 a + shaMaj a b c)
      shaRounds rest [w32 (t1 + t2), a, b, c, w32 (d + t1), e, f, g]

/-- Compress one 64-byte block into the hash state. -/
def shaProcessBlock (h : List Nat) (block : List Nat) : List Nat :=
  let w := shaExtend 48 (bytesToWords block)
  let v := shaRounds (shaK.zip w) h
  (h.zip v).map (fun p => w32 (p.1 + p.2))

/-- Split into 64-byte blocks. -/
def toBlocks : List Nat → List (List Nat)
  | [] => []
  | c :: cs => ((c :: cs).take 64) :: toBlocks ((c :: cs).drop 64)
termination_by l => l.length
decreasing_by simp; omega

/-- SHA-256 of a byte sequence (FIPS 180-4): pad to a multiple of 64 bytes with
`0x80`, zeros and the 64-bit big-endian bit length, then compress block-wise. -/
def sha256 (msg : List Nat) : List Nat :=
  let padZeros := (119 - msg.length % 64) % 64
  let padded := msg ++ 128 :: List.replicate padZeros 0 ++ natToBytesBE 8 (msg.length * 8)
  let final := (toBlocks padded).foldl shaProcessBlock shaH0
  (final.map (natToBytesBE 4)).flatten

/-- HMAC-SHA256 (RFC 2104): keys longer than the 64-byte block are hashed,
shorter keys zero-padded; defined for every key length. -/
def hmacSha256 (key message : List Nat) : List Nat :=
  let k0 := if key.length > 64 then sha256 key else key
  let kpad := k0 ++ List.replicate (64 - k0.length) 0
  let ipad := kpad.map (fun b => b ^^^ 54)
  let opad := kpad.map (fun b => b ^^^ 92)
  sha256 (opad ++ sha256 (ipad ++ message))

/-! ## Base64 (`base64::encode`, standard alphabet with padding) -/

/-- The standard base64 alphabet. -/
def base64Char (n : Nat) : Char :=
  "ABCDEFGHIJKLMNOPQRSTUVWXYZabcdefghijklmnopqrstuvwxyz0123456789+/".data.getD n 'A'

/-- Base64 characters of a byte sequence, 3 bytes → 4 chars, `=`-padded. -/
def base64Chars : List Nat → List Char
  | b0 :: b1 :: b2 :: rest =>
      let n := b0 * 65536 + b1 * 256 + b2
      base64Char (n / 262144) :: base64Char (n / 4096 % 64) ::
        base64Char (n / 64 % 64) :: base64Char (n % 64) :: base64Chars rest
  | [b0, b1] =>
      let n := b0 * 65536 + b1 * 256
      [base64Char (n / 262144), base64Char (n / 4096 % 64), base64Char (n / 64 % 64), '=']
  | [b0] =>
      let n := b0 * 65536
      [base64Char (n / 262144), base64Char (n / 4096 % 64), '=', '=']
  | [] => []

/-- `base64::encode`. -/
def base64Encode (bytes : List Nat) : String :=
  String.mk (base64Chars bytes)

/-! ## The client (`struct DingTalk`, `src/lib.rs`) -/

/-- The default DingTalk webhook base URL. -/
def DEFAULT_DINGTALK_ROBOT_URL : String := "https://oapi.dingtalk.com/robot/send"

/-- The default WeChat Work webhook base URL. -/
def DEFAULT_WECHAT_WORK_ROBOT_URL : String := "https://qyapi.weixin.qq.com/cgi-bin/webhook/send"

/-- `struct DingTalk`: the robot client configuration. -/
structure DingTalk where
  dingtalk_type : DingTalkType := .DingTalk
  default_webhook_url : String := ""
  access_token : String := ""
  sec_token : String := ""
  direct_url : String := ""
  deriving Repr, DecidableEq, Inhabited

namespace DingTalk

/-- `DingTalk::new`. -/
def new (access_token sec_token : String) : DingTalk :=
  { default_webhook_url := DEFAULT_DINGTALK_ROBOT_URL
    access_token := access_token
    sec_token := sec_token }

/-- `DingTalk::new_wechat`. -/
def new_wechat (key : String) : DingTalk :=
  { default_webhook_url := DEFAULT_WECHAT_WORK_ROBOT_URL
    dingtalk_type := .WeChatWork
    access_token := key }

/-- `DingTalk::from_url`. -/
def from_url (direct_url : String) : DingTalk :=
  { direct_url := direct_url }

end DingTalk

/-- The first two items of Rust's `str::split(sep)` iterator: the chunk before
the first `sep`, and (when a `sep` occurs) the chunk between the first and the
second `sep`. The second component is `""` when no `sep` occurs, exactly as
`from_token` defaults the missing `sec_token`. -/
def splitFirstTwo (sep : Char) (cs : List Char) : List Char × List Char :=
  let first := cs.takeWhile (fun c => c ≠ sep)
  match cs.dropWhile (fun c => c ≠ sep) with
  | [] => (first, [])
  | _ :: tail => (first, tail.takeWhile (fun c => c ≠ sep))

/-- `DingTalk::from_token` (`src/lib.rs` 182-200): parse a provider-prefixed
credential string. The unrecognized-prefix error keeps the source's exact
(misspelled) message. -/
def DingTalk.from_token (token : String) : Except String DingTalk :=
  if "dingtalk:".data.isPrefixOf token.data then
    let token_and_or_sec := token.data.drop "dingtalk:".length
    let p := splitFirstTwo '?' token_and_or_sec
    .ok (DingTalk.new (String.mk p.1) (String.mk p.2))
  else if "wechatwork:".data.isPrefixOf token.data then
    .ok (DingTalk.new_wechat (String.mk (token.data.drop "wechatwork:".length)))
  else if "wecom:".data.isPrefixOf token.data then
    .ok (DingTalk.new_wechat (String.mk (token.data.drop "wecom:".length)))
  else
    .error ("Tokne format erorr: " ++ token)

/-- The Rust `hmac` crate's `Hmac::<Sha256>::new_varkey`: HMAC accepts keys of
every length (RFC 2104), so key construction always succeeds; the keyed state
is represented by the key bytes themselves. -/
def hmacNewVarkey (key : List Nat) : Except String (List Nat) :=
  .ok key

/-- `calc_hmac_sha256` (`src/lib.rs` 450-458). -/
def calc_hmac_sha256 (key message : List Nat) : Except String (List Nat) :=
  match hmacNewVarkey key with
  | .error e => .error ("Hmac error: " ++ e)
  | .ok k => .ok (hmacSha256 k message)

/-- Rust `str::ends_with(char)`: does the string end with this character? -/
def strEndsWithChar (s : String) (c : Char) : Bool :=
  s.data.getLast? == some c

/-- Rust `str::contains(char)`: does the string contain this character? -/
def strContainsChar (s : String) (c : Char) : Bool :=
  s.data.contains c

/-- The query-string joiner of `generate_signed_url` (`src/lib.rs` 418-426):
what lands between the base webhook URL and the first appended credential
parameter (`ends_with('?')` → nothing; else `contains('?')` → `&` unless it
already `ends_with('&')`; else `?`). -/
def urlJoiner (url : String) : String :=
  if strEndsWithChar url '?' then ""
  else if strContainsChar url '?' then
    (if strEndsWithChar url '&' then "" else "&")
  else "?"

/-- `DingTalk::generate_signed_url` (`src/lib.rs` 411-446). The system clock
read (`SystemTime::now`, epoch milliseconds) is an external input and is
passed as `nowMillis`. -/
def DingTalk.generate_signed_url (dt : DingTalk) (nowMillis : Nat) : Except String String :=
  if dt.direct_url = "" then
    let signed_url := dt.default_webhook_url ++ urlJoiner dt.default_webhook_url
    let signed_url := signed_url ++
      (match dt.dingtalk_type with
       | .DingTalk => "access_token="
       | .WeChatWork => "key=")
    let signed_url := signed_url ++ urlencode dt.access_token
    if dt.sec_token = "" then
      .ok signed_url
    else
      let timestamp := toString nowMillis
      let timestamp_and_secret := timestamp ++ "\n" ++ dt.sec_token
      match calc_hmac_sha256 (utf8Bytes dt.sec_token) (utf8Bytes timestamp_and_secret) with
      | .error e => .error e
      | .ok digest =>
          let hmac_sha256 := base64Encode digest
          .ok (signed_url ++ "&timestamp=" ++ timestamp ++ "&sign=" ++ urlencode hmac_sha256)
  else
    .ok dt.direct_url

/-- What the external HTTP transport (`reqwest`) hands back to `DingTalk::send`:
either a response with its status code, or a transport-level failure. -/
inductive TransportResult where
  | response (status : Nat)
  | failure (message : String)
  deriving Repr, DecidableEq, Inhabited

/-- `DingTalk::send` (`src/lib.rs` 393-408): POST the payload and interpret
the outcome. The single HTTP exchange is an external input (`result`); the
function consumes exactly one — no retry exists in the source. -/
def DingTalk.send (dt : DingTalk) (nowMillis : Nat) (result : TransportResult) :
    Except String Unit :=
  match dt.generate_signed_url nowMillis with
  | .error e => .error e
  | .ok _ =>
      match result with
      | .failure e => .error ("Unknown error: " ++ e)
      | .response status =>
          if status = 200 then .ok ()
          else .error ("Unknown status: " ++ toString status)

/-! ## Claim theorems -/

/-- C1 (amended): for every ActionCard message, if the single button is set the
actionCard object gains `singleTitle`/`singleURL` and no `btns` key, regardless
of entries in the button list; otherwise the actionCard object gains a `btns`
array of `{title, actionURL}` objects — which is present (as an empty array)
even when the button list is empty — and no `singleTitle`/`singleURL`. -/
theorem c1_action_card_button_rule (m : DingTalkMessage)
    (h : m.message_type = DingTalkMessageType.ActionCard) :
    match m.action_card_single_btn with
    | some b =>
        ((send_message_json m).getKey "actionCard").bind (fun ac => ac.getKey "singleTitle") =
          some (Json.str b.title) ∧
        ((send_message_json m).getKey "actionCard").bind (fun ac => ac.getKey "singleURL") =
          some (Json.str b.action_url) ∧
        ((send_message_json m).getKey "actionCard").bind (fun ac => ac.getKey "btns") = none
    | none =>
        ((send_message_json m).getKey "actionCard").bind (fun ac => ac.getKey "btns") =
          some (Json.arr (m.action_card_btns.map (fun b =>
            Json.obj [("title", Json.str b.title), ("actionURL", Json.str b.action_url)]))) ∧
        ((send_message_json m).getKey "actionCard").bind (fun ac => ac.getKey "singleTitle") =
          none ∧
        ((send_message_json m).getKey "actionCard").bind (fun ac => ac.getKey "singleURL") =
          none := by
  obtain ⟨mt, f1, f2, f3, f4, f5, f6, f7, f8, f9, f10, f11, asb, f13, f14, aa, am⟩ := m
  subst h
  cases asb <;> cases aa <;> cases am <;> exact ⟨rfl, rfl, rfl⟩

/-- C1 witness: concrete ActionCard with a single button and a non-empty
button list; the single button wins and `btns` is absent. -/
theorem c1_action_card_button_rule_witness :
    ((send_message_json (((DingTalkMessage.new_action_card "t" "x").add_action_card_btn
        ⟨"lt", "lu"⟩).set_action_card_signle_btn ⟨"bt", "bu"⟩)).getKey "actionCard").bind
      (fun ac => ac.getKey "singleTitle") = some (Json.str "bt") ∧
    ((send_message_json (((DingTalkMessage.new_action_card "t" "x").add_action_card_btn
        ⟨"lt", "lu"⟩).set_action_card_signle_btn ⟨"bt", "bu"⟩)).getKey "actionCard").bind
      (fun ac => ac.getKey "singleURL") = some (Json.str "bu") ∧
    ((send_message_json (((DingTalkMessage.new_action_card "t" "x").add_action_card_btn
        ⟨"lt", "lu"⟩).set_action_card_signle_btn ⟨"bt", "bu"⟩)).getKey "actionCard").bind
      (fun ac => ac.getKey "btns") = none :=
  c1_action_card_button_rule
    (((DingTalkMessage.new_action_card "t" "x").add_action_card_btn
      ⟨"lt", "lu"⟩).set_action_card_signle_btn ⟨"bt", "bu"⟩) rfl

/-- C1 counterexample: an ActionCard with no single button and an empty button
list. The claim says both `singleTitle`/`singleURL` and `btns` are omitted,
but the code writes `"btns": []` unconditionally in the no-single-button
branch (`src/lib.rs` 350-359). -/
theorem c1_action_card_button_rule_counterexample :
    ¬ (((send_message_json (DingTalkMessage.new_action_card "t" "x")).getKey "actionCard").bind
        (fun ac => ac.getKey "btns") = none) :=
  fun h => Option.noConfusion h

/-- Helper: converting the feed-card links to the wire struct and then
serializing equals serializing in one pass (the source does the two maps). -/
theorem mapFeedLinkToJson (ls : List DingTalkMessageFeedCardLink) :
    (ls.map (fun l =>
      InnerFeedCardMessageFeedCardLink.mk l.title l.message_url l.pic_url)).map
        InnerFeedCardMessageFeedCardLink.toJson =
    ls.map (fun l => Json.obj [("title", Json.str l.title),
      ("messageURL", Json.str l.message_url), ("picURL", Json.str l.pic_url)]) := by
  rw [List.map_map]
  rfl

/-- C3: for every message, the payload's `msgtype` is the variant's literal
tag, the variant's fields sit under a key equal to that tag, and the nested
field names are camelCase (`picUrl`, `messageUrl` in Link) except the
ActionCard button field `actionURL` and the FeedCard link fields `messageURL`
and `picURL`. -/
theorem c3_wire_shape (m : DingTalkMessage) :
    (send_message_json m).getKey "msgtype" = some (Json.str m.message_type.tag) ∧
    (send_message_json m).getKey m.message_type.tag = some (
      match m.message_type with
      | .Text => Json.obj [("content", Json.str m.text_content)]
      | .Markdown =>
          Json.obj [("title", Json.str m.markdown_title), ("text", Json.str m.markdown_content)]
      | .Link =>
          Json.obj [("title", Json.str m.link_title), ("text", Json.str m.link_text),
            ("picUrl", Json.str m.link_pic_url), ("messageUrl", Json.str m.link_message_url)]
      | .ActionCard =>
          Json.obj ([("title", Json.str m.action_card_title),
            ("text", Json.str m.action_card_text),
            ("hideAvatar", Json.str m.action_card_hide_avatar.tag),
            ("btnOrientation", Json.str m.action_card_btn_orientation.tag)] ++
            (match m.action_card_single_btn with
             | some b => [("singleTitle", Json.str b.title), ("singleURL", Json.str b.action_url)]
             | none => [("btns", Json.arr (m.action_card_btns.map (fun b =>
                 Json.obj [("title", Json.str b.title), ("actionURL", Json.str b.action_url)])))]))
      | .FeedCard =>
          Json.obj [("links", Json.arr (m.feed_card_links.map (fun l =>
            Json.obj [("title", Json.str l.title), ("messageURL", Json.str l.message_url),
              ("picURL", Json.str l.pic_url)])))]) := by
  obtain ⟨mt, f1, f2, f3, f4, f5, f6, f7, f8, f9, f10, f11, asb, f13, f14, aa, am⟩ := m
  cases mt <;> cases asb <;> cases aa <;> cases am <;> refine ⟨rfl, ?_⟩ <;>
    simp only [← mapFeedLinkToJson] <;> rfl

/-- C4: the payload has a top-level `at` key exactly when the mention-everyone
flag is set or the mentioned-mobiles list is non-empty, and then its value is
`{"atMobiles": [...], "isAtAll": <bool>}` with the mobiles in insertion
order; otherwise the `at` key is absent. -/
theorem c4_at_block (m : DingTalkMessage) :
    (send_message_json m).getKey "at" =
      (if m.at_all || !m.at_mobiles.isEmpty then
        some (Json.obj [("atMobiles", Json.arr (m.at_mobiles.map Json.str)),
          ("isAtAll", Json.bool m.at_all)])
      else none) := by
  obtain ⟨mt, f1, f2, f3, f4, f5, f6, f7, f8, f9, f10, f11, asb, f13, f14, aa, am⟩ := m
  cases mt <;> cases asb <;> cases aa <;> cases am <;> rfl

/-- Helper: a list that does not contain `c` does not end in `c`. -/
theorem getLast?_beq_eq_false_of_not_contains {l : List Char} {c : Char}
    (h : l.contains c = false) : (l.getLast? == some c) = false := by
  induction l with
  | nil => rfl
  | cons a t ih =>
      simp only [List.contains_cons, Bool.or_eq_false_iff] at h
      cases t with
      | nil =>
          show (a == c) = false
          simp only [beq_eq_false_iff_ne] at h ⊢
          exact fun hh => h.1 hh.symm
      | cons b u =>
          exact ih h.2

/-- C5 (amended): the joiner between the base URL and the first appended
credential parameter: if the base URL ends with `?`, nothing is inserted;
else if it contains `?` and does not end with `&`, a single `&` is inserted;
else if it contains `?` and ends with `&`, nothing is inserted; else (no `?`
at all) a single `?` is inserted. (The claim's third branch lacked the
contains-`?` condition: a URL ending in `&` without any `?` gets `?`.) -/
theorem c5_query_joiner (base : String) :
    (strEndsWithChar base '?' = true → urlJoiner base = "") ∧
    (strContainsChar base '?' = true → strEndsWithChar base '?' = false →
      strEndsWithChar base '&' = false → urlJoiner base = "&") ∧
    (strContainsChar base '?' = true → strEndsWithChar base '?' = false →
      strEndsWithChar base '&' = true → urlJoiner base = "") ∧
    (strContainsChar base '?' = false → urlJoiner base = "?") := by
  refine ⟨fun h1 => ?_, fun h1 h2 h3 => ?_, fun h1 h2 h3 => ?_, fun h1 => ?_⟩
  · simp [urlJoiner, h1]
  · simp [urlJoiner, h1, h2, h3]
  · simp [urlJoiner, h1, h2, h3]
  · have h2 : strEndsWithChar base '?' = false :=
      getLast?_beq_eq_false_of_not_contains h1
    simp [urlJoiner, h1, h2]

/-- C5 witness: `https://x/a?p=1` contains `?`, does not end with `?` or `&`,
so `&` is the joiner. -/
theorem c5_query_joiner_witness : urlJoiner "https://x/a?p=1" = "&" :=
  (c5_query_joiner "https://x/a?p=1").2.1 (by decide) (by decide) (by decide)

/-- C5 counterexample: the claim as stated, evaluated at a base URL that ends
in `&` but contains no `?`. Its branch order selects the ends-with-`&` branch
and predicts no insertion, but the code (which reaches the ends-with-`&` test
only under `contains('?')`) inserts `?`. -/
theorem c5_query_joiner_counterexample :
    ¬ (urlJoiner "https://hatter.ink/robot&" =
        (if strEndsWithChar "https://hatter.ink/robot&" '?' then ""
         else if strContainsChar "https://hatter.ink/robot&" '?' &&
             !strEndsWithChar "https://hatter.ink/robot&" '&' then "&"
         else if strEndsWithChar "https://hatter.ink/robot&" '&' then ""
         else "?")) := by decide

/-- C6: with no direct override and an empty secret, the generated URL is the
base URL, the joiner, then `access_token=<urlencoded token>` for DingTalk or
`key=<urlencoded token>` for WeChatWork; concretely, base
`https://oapi.dingtalk.com/robot/send`, token `abc`, empty secret gives
exactly `https://oapi.dingtalk.com/robot/send?access_token=abc`. -/
theorem c6_credential_parameter (dt : DingTalk) (nowMillis : Nat)
    (h1 : dt.direct_url = "") (h2 : dt.sec_token = "") :
    dt.generate_signed_url nowMillis =
      .ok (dt.default_webhook_url ++ urlJoiner dt.default_webhook_url ++
        (match dt.dingtalk_type with
         | .DingTalk => "access_token="
         | .WeChatWork => "key=") ++ urlencode dt.access_token) ∧
    (DingTalk.new "abc" "").generate_signed_url nowMillis =
      .ok "https://oapi.dingtalk.com/robot/send?access_token=abc" := by
  constructor
  · unfold DingTalk.generate_signed_url
    simp [h1, h2]
  · rfl

/-- C6 witness: the DingTalk/WeChatWork parameter names at concrete clients. -/
theorem c6_credential_parameter_witness :
    (DingTalk.new_wechat "k1").generate_signed_url 7 =
      .ok ((DingTalk.new_wechat "k1").default_webhook_url ++
        urlJoiner (DingTalk.new_wechat "k1").default_webhook_url ++
        "key=" ++ urlencode "k1") ∧
    (DingTalk.new "abc" "").generate_signed_url 7 =
      .ok "https://oapi.dingtalk.com/robot/send?access_token=abc" :=
  c6_credential_parameter (DingTalk.new_wechat "k1") 7 rfl rfl

/-- C7: a non-empty direct URL override short-circuits URL generation: the
direct URL comes back unchanged, whatever the token and secret are. -/
theorem c7_direct_url_short_circuit (dt : DingTalk) (nowMillis : Nat)
    (h : dt.direct_url ≠ "") :
    dt.generate_signed_url nowMillis = .ok dt.direct_url := by
  unfold DingTalk.generate_signed_url
  simp [h]

/-- C7 witness: a direct-URL client with a token and secret configured still
returns the direct URL verbatim. -/
theorem c7_direct_url_short_circuit_witness :
    ({ DingTalk.new "abc" "sec" with direct_url := "https://direct" } :
      DingTalk).generate_signed_url 3 = .ok "https://direct" :=
  c7_direct_url_short_circuit
    { DingTalk.new "abc" "sec" with direct_url := "https://direct" } 3 (by decide)

/-- C2: with no direct override, the generated URL is the empty-secret URL
plus, exactly when the secret is non-empty, the suffix
`&timestamp=<t>&sign=<s>` with `t` the epoch milliseconds in decimal and `s`
the percent-encoding of `base64(HMAC-SHA256(key = secret bytes,
message = t ++ "\n" ++ secret))`; an empty secret appends nothing. -/
theorem c2_signed_suffix (dt : DingTalk) (nowMillis : Nat) (h : dt.direct_url = "") :
    dt.generate_signed_url nowMillis =
      (({ dt with sec_token := "" } : DingTalk).generate_signed_url nowMillis).map
        (fun base => base ++
          (if dt.sec_token = "" then ""
           else "&timestamp=" ++ toString nowMillis ++ "&sign=" ++
             urlencode (base64Encode (hmacSha256 (utf8Bytes dt.sec_token)
               (utf8Bytes (toString nowMillis ++ "\n" ++ dt.sec_token)))))) := by
  unfold DingTalk.generate_signed_url
  by_cases hs : dt.sec_token = "" <;>
    simp [h, hs, calc_hmac_sha256, hmacNewVarkey, Except.map, String.append_assoc]

/-- C2 witness: concrete client with secret `sec` at timestamp 1. -/
theorem c2_signed_suffix_witness :
    (DingTalk.new "abc" "sec").generate_signed_url 1 =
      (({ DingTalk.new "abc" "sec" with sec_token := "" } : DingTalk).generate_signed_url 1).map
        (fun base => base ++
          (if ("sec" : String) = "" then ""
           else "&timestamp=" ++ toString 1 ++ "&sign=" ++
             urlencode (base64Encode (hmacSha256 (utf8Bytes "sec")
               (utf8Bytes (toString 1 ++ "\n" ++ "sec")))))) :=
  c2_signed_suffix (DingTalk.new "abc" "sec") 1 rfl

/-- Helper: URL generation always succeeds (shared by the totality and the
response-handling results). -/
theorem generate_signed_url_ok (dt : DingTalk) (nowMillis : Nat) :
    ∃ url, dt.generate_signed_url nowMillis = .ok url := by
  unfold DingTalk.generate_signed_url
  by_cases h1 : dt.direct_url = "" <;> by_cases h2 : dt.sec_token = "" <;>
    simp [h1, h2, calc_hmac_sha256, hmacNewVarkey]

/-- C10: signing is total. HMAC-SHA256 key construction accepts every key, so
`calc_hmac_sha256` always returns `Ok`, and `generate_signed_url` returns `Ok`
for every configuration and clock value. -/
theorem c10_signing_total (dt : DingTalk) (nowMillis : Nat) :
    (∀ key message, calc_hmac_sha256 key message = .ok (hmacSha256 key message)) ∧
    ∃ url, dt.generate_signed_url nowMillis = .ok url :=
  ⟨fun _ _ => rfl, generate_signed_url_ok dt nowMillis⟩

/-- Helper: `takeWhile` walks through a block that satisfies the predicate. -/
theorem takeWhile_append_of_all {p : Char → Bool} (xs ys : List Char)
    (h : ∀ x ∈ xs, p x = true) :
    (xs ++ ys).takeWhile p = xs ++ ys.takeWhile p := by
  induction xs with
  | nil => rfl
  | cons a t ih =>
      rw [List.cons_append, List.takeWhile_cons_of_pos (h a (by simp)),
        ih (fun x hx => h x (by simp [hx])), List.cons_append]

/-- Helper: `dropWhile` walks through a block that satisfies the predicate. -/
theorem dropWhile_append_of_all {p : Char → Bool} (xs ys : List Char)
    (h : ∀ x ∈ xs, p x = true) :
    (xs ++ ys).dropWhile p = ys.dropWhile p := by
  induction xs with
  | nil => rfl
  | cons a t ih =>
      rw [List.cons_append, List.dropWhile_cons_of_pos (h a (by simp)),
        ih (fun x hx => h x (by simp [hx]))]

/-- Helper: on a separator-free input, the split yields the whole input and an
empty second chunk. -/
theorem splitFirstTwo_no_sep {sep : Char} {xs : List Char} (h : sep ∉ xs) :
    splitFirstTwo sep xs = (xs, []) := by
  have hall : ∀ x ∈ xs, (decide (x ≠ sep)) = true :=
    fun x hx => decide_eq_true (fun heq => h (heq ▸ hx))
  unfold splitFirstTwo
  rw [List.takeWhile_eq_self_iff.mpr hall, List.dropWhile_eq_nil_iff.mpr hall]

/-- Helper: with separator-free `xs` and `ys`, splitting `xs ++ sep :: ys`
yields `(xs, ys)`. -/
theorem splitFirstTwo_mid {sep : Char} {xs ys : List Char} (hx : sep ∉ xs)
    (hy : sep ∉ ys) : splitFirstTwo sep (xs ++ sep :: ys) = (xs, ys) := by
  have hallx : ∀ x ∈ xs, (decide (x ≠ sep)) = true :=
    fun x h => decide_eq_true (fun heq => hx (heq ▸ h))
  have hally : ∀ x ∈ ys, (decide (x ≠ sep)) = true :=
    fun x h => decide_eq_true (fun heq => hy (heq ▸ h))
  unfold splitFirstTwo
  rw [takeWhile_append_of_all _ _ hallx, dropWhile_append_of_all _ _ hallx,
    List.takeWhile_cons_of_neg (by simp), List.dropWhile_cons_of_neg (by simp),
    List.append_nil]
  show (xs, List.takeWhile (fun c => decide (c ≠ sep)) ys) = (xs, ys)
  rw [List.takeWhile_eq_self_iff.mpr hally]

/-- C8: credential-string parsing. `dingtalk:tok?sec` (with `?`-free `tok` and
`sec`, which makes the decomposition unambiguous) gives access token `tok` and
secret `sec`; `dingtalk:tok` gives an empty secret; `wechatwork:key1` and
`wecom:key1` give a WeChatWork client with access token `key1`; a string with
none of the three prefixes fails with the token-format error. -/
theorem c8_from_token_parsing :
    (∀ tok sec : String, '?' ∉ tok.data → '?' ∉ sec.data →
      DingTalk.from_token ("dingtalk:" ++ tok ++ "?" ++ sec) =
        .ok (DingTalk.new tok sec)) ∧
    (∀ tok : String, '?' ∉ tok.data →
      DingTalk.from_token ("dingtalk:" ++ tok) = .ok (DingTalk.new tok "")) ∧
    (DingTalk.from_token "wechatwork:key1" = .ok (DingTalk.new_wechat "key1") ∧
     DingTalk.from_token "wecom:key1" = .ok (DingTalk.new_wechat "key1") ∧
     (DingTalk.new_wechat "key1").dingtalk_type = .WeChatWork ∧
     (DingTalk.new_wechat "key1").access_token = "key1") ∧
    (∀ t : String, "dingtalk:".data.isPrefixOf t.data = false →
      "wechatwork:".data.isPrefixOf t.data = false →
      "wecom:".data.isPrefixOf t.data = false →
      DingTalk.from_token t = .error ("Tokne format erorr: " ++ t)) := by
  refine ⟨fun tok sec h1 h2 => ?_, fun tok h1 => ?_, ⟨rfl, rfl, rfl, rfl⟩,
    fun t h1 h2 h3 => ?_⟩
  · have hdata : ("dingtalk:" ++ tok ++ "?" ++ sec).data =
        "dingtalk:".data ++ (tok.data ++ '?' :: sec.data) := by
      simp [String.data_append]
    have hpre : "dingtalk:".data.isPrefixOf
        ("dingtalk:".data ++ (tok.data ++ '?' :: sec.data)) = true := by
      rw [List.isPrefixOf_iff_prefix]
      exact List.prefix_append _ _
    have hdrop : ("dingtalk:".data ++ (tok.data ++ '?' :: sec.data)).drop
        "dingtalk:".length = tok.data ++ '?' :: sec.data :=
      List.drop_left _ _
    simp only [DingTalk.from_token, hdata, hpre, if_true, hdrop,
      splitFirstTwo_mid h1 h2]
  · have hdata : ("dingtalk:" ++ tok).data = "dingtalk:".data ++ tok.data :=
      String.data_append _ _
    have hpre : "dingtalk:".data.isPrefixOf ("dingtalk:".data ++ tok.data) = true := by
      rw [List.isPrefixOf_iff_prefix]
      exact List.prefix_append _ _
    have hdrop : ("dingtalk:".data ++ tok.data).drop "dingtalk:".length = tok.data :=
      List.drop_left _ _
    simp only [DingTalk.from_token, hdata, hpre, if_true, hdrop,
      splitFirstTwo_no_sep h1]
  · simp only [DingTalk.from_token, h1, h2, h3, Bool.false_eq_true, if_false]

/-- C8 witness: the four shapes at concrete credential strings. -/
theorem c8_from_token_parsing_witness :
    DingTalk.from_token ("dingtalk:" ++ "tok" ++ "?" ++ "sec") =
      .ok (DingTalk.new "tok" "sec") ∧
    DingTalk.from_token ("dingtalk:" ++ "tok") = .ok (DingTalk.new "tok" "") ∧
    DingTalk.from_token "bogus:key1" = .error ("Tokne format erorr: " ++ "bogus:key1") :=
  ⟨c8_from_token_parsing.1 "tok" "sec" (by decide) (by decide),
   c8_from_token_parsing.2.1 "tok" (by decide),
   c8_from_token_parsing.2.2.2 "bogus:key1" (by decide) (by decide) (by decide)⟩

/-- C9: response handling of a send. The one HTTP exchange is an explicit
input: status exactly 200 gives `Ok` with no payload, any other status gives
the delivery error carrying that status code, and a transport-level failure
gives the transport error; the function consumes exactly one transport
result, so no retry happens in either case. -/
theorem c9_response_handling (dt : DingTalk) (nowMillis : Nat) :
    (∀ status : Nat, dt.send nowMillis (.response status) =
      (if status = 200 then .ok ()
       else .error ("Unknown status: " ++ toString status))) ∧
    (∀ e : String, dt.send nowMillis (.failure e) =
      .error ("Unknown error: " ++ e)) := by
  obtain ⟨_, hurl⟩ := generate_signed_url_ok dt nowMillis
  constructor
  · intro status
    unfold DingTalk.send
    rw [hurl]
  · intro e
    unfold DingTalk.send
    rw [hurl]

end DingTalkRs
